import Mathlib

/-!
# Verification of the `uhd` binding crate

A shallow embedding, in Lean 4, of the pure logic of the `uhd` Rust crate
(a safe binding over the UHD C API), together with theorems checking the
crate's natural-language specification against the code.

Conventions of the embedding:

* Native status codes (`uhd_sys::uhd_error::Type`) and the receive-metadata
  and stream-mode enums are C enums; they are embedded as `Nat` constants
  carrying the values declared in the UHD C headers (`uhd/error.h`,
  `uhd/types/metadata.h`, `uhd/types/usrp_info.h`).  Modelling them as `Nat`
  keeps "a status outside the known enumeration" expressible.
* The native library's last-error slot (read by `uhd_get_last_error`) is a
  piece of global C state; functions that read it take its current value as
  an explicit `Option String` parameter (`none` models a failed copy).
* Byte buffers handed to C are `List Nat` (one `Nat` per byte, null = 0).
* Rust `panic!` / `expect` / `assert_eq!` outcomes are modelled as `none`
  (for `Option`-returning projections) or a dedicated `panicked` constructor.
* `f64` values are only ever copied verbatim by the embedded code, never
  inspected; they are embedded as a type parameter `α`.
* Machine integers are embedded as `Nat`/`Int`; where the Rust code performs
  a checked conversion (`try_into`) the explicit range condition of the
  target C type on a 64-bit host (`time_t` = signed 64-bit,
  `size_t` = unsigned 64-bit) appears in the embedding.

Rust identifier names are kept where Lean allows; the `Error` kind variants
`Type` and `Except` collide with Lean keywords and are embedded as
`TypeErr` and `ExceptErr`.
-/

namespace Uhd

/-! ## Native status codes (`uhd_sys::uhd_error`, values from `uhd/error.h`) -/

def UHD_ERROR_NONE : Nat := 0
def UHD_ERROR_INVALID_DEVICE : Nat := 1
def UHD_ERROR_INDEX : Nat := 10
def UHD_ERROR_KEY : Nat := 11
def UHD_ERROR_NOT_IMPLEMENTED : Nat := 20
def UHD_ERROR_USB : Nat := 21
def UHD_ERROR_IO : Nat := 30
def UHD_ERROR_OS : Nat := 31
def UHD_ERROR_ASSERTION : Nat := 40
def UHD_ERROR_LOOKUP : Nat := 41
def UHD_ERROR_TYPE : Nat := 42
def UHD_ERROR_VALUE : Nat := 43
def UHD_ERROR_RUNTIME : Nat := 44
def UHD_ERROR_ENVIRONMENT : Nat := 45
def UHD_ERROR_SYSTEM : Nat := 46
def UHD_ERROR_EXCEPT : Nat := 47
def UHD_ERROR_BOOSTEXCEPT : Nat := 60
def UHD_ERROR_STDEXCEPT : Nat := 70
def UHD_ERROR_UNKNOWN : Nat := 100

/-- The status codes named in the `uhd_error` enumeration (the `code_to_error_kind`
match arms in `src/error.rs`). -/
def knownErrorCodes : List Nat :=
  [ UHD_ERROR_NONE, UHD_ERROR_INVALID_DEVICE, UHD_ERROR_INDEX, UHD_ERROR_KEY,
    UHD_ERROR_NOT_IMPLEMENTED, UHD_ERROR_USB, UHD_ERROR_IO, UHD_ERROR_OS,
    UHD_ERROR_ASSERTION, UHD_ERROR_LOOKUP, UHD_ERROR_TYPE, UHD_ERROR_VALUE,
    UHD_ERROR_RUNTIME, UHD_ERROR_ENVIRONMENT, UHD_ERROR_SYSTEM, UHD_ERROR_EXCEPT,
    UHD_ERROR_BOOSTEXCEPT, UHD_ERROR_STDEXCEPT, UHD_ERROR_UNKNOWN ]

/-! ## Error model (`src/uhd/src/error.rs`) -/

/-- Embedding of `ErrorKind` from `src/error.rs`.  The Rust variants `Type` and `Except`
are Lean keywords and are embedded as `TypeErr` / `ExceptErr`. -/
inductive ErrorKind where
  | InvalidDevice
  | Index
  | Key
  | NotImplemented
  | Usb
  | Io
  | Os
  | Assertion
  | Lookup
  | TypeErr
  | Value
  | Runtime
  | Environment
  | System
  | ExceptErr
  | BoostExcept
  | StdExcept
  | NullByte
  | StringLength
  | Utf8
  | Unknown
deriving DecidableEq, Repr

/-- Embedding of `Error` from `src/error.rs`: a kind plus an optional message copied from
the native last-error slot. -/
structure Error where
  kind : ErrorKind
  message : Option String
deriving DecidableEq, Repr

/-- Embedding of `Error::new(kind)` from `src/error.rs`. -/
def Error.new (kind : ErrorKind) : Error := ⟨kind, none⟩

/-- Embedding of `code_to_error_kind` from `src/error.rs` lines 91-114: `UHD_ERROR_NONE`
maps to `None`; each named code maps to its kind; everything else (including
`UHD_ERROR_UNKNOWN`) maps to `Unknown`. -/
def code_to_error_kind (code : Nat) : Option ErrorKind :=
  if code = UHD_ERROR_NONE then none
  else if code = UHD_ERROR_INVALID_DEVICE then some ErrorKind.InvalidDevice
  else if code = UHD_ERROR_INDEX then some ErrorKind.Index
  else if code = UHD_ERROR_KEY then some ErrorKind.Key
  else if code = UHD_ERROR_NOT_IMPLEMENTED then some ErrorKind.NotImplemented
  else if code = UHD_ERROR_USB then some ErrorKind.Usb
  else if code = UHD_ERROR_IO then some ErrorKind.Io
  else if code = UHD_ERROR_OS then some ErrorKind.Os
  else if code = UHD_ERROR_ASSERTION then some ErrorKind.Assertion
  else if code = UHD_ERROR_LOOKUP then some ErrorKind.Lookup
  else if code = UHD_ERROR_TYPE then some ErrorKind.TypeErr
  else if code = UHD_ERROR_VALUE then some ErrorKind.Value
  else if code = UHD_ERROR_RUNTIME then some ErrorKind.Runtime
  else if code = UHD_ERROR_ENVIRONMENT then some ErrorKind.Environment
  else if code = UHD_ERROR_SYSTEM then some ErrorKind.System
  else if code = UHD_ERROR_EXCEPT then some ErrorKind.ExceptErr
  else if code = UHD_ERROR_BOOSTEXCEPT then some ErrorKind.BoostExcept
  else if code = UHD_ERROR_STDEXCEPT then some ErrorKind.StdExcept
  else some ErrorKind.Unknown

/-- Embedding of `Error::from_code_with_last_error` from `src/error.rs`: `None` when the
code is `UHD_ERROR_NONE`, otherwise an error of the mapped kind carrying the
current native last-error message (`lastErr` models the value read through
`uhd_get_last_error`). -/
def Error.from_code_with_last_error (code : Nat) (lastErr : Option String) : Option Error :=
  (code_to_error_kind code).map fun kind => Error.mk kind lastErr

/-- Embedding of `check_status` from `src/error.rs` lines 50-56: converts a status code
into a result. -/
def check_status (status : Nat) (lastErr : Option String) : Except Error Unit :=
  match Error.from_code_with_last_error status lastErr with
  | some e => Except.error e
  | none => Except.ok ()

/-! ## Buffer-size growth and string copy-out (`src/uhd/src/utils.rs`) -/

/-- Embedding of `INITIAL_SIZE` from `src/utils.rs`. -/
def INITIAL_SIZE : Nat := 128

/-- Embedding of `MAX_SIZE` from `src/utils.rs` (1 MiB). -/
def MAX_SIZE : Nat := 1024 * 1024

/-- Embedding of `BufferSizes` from `src/utils.rs`: iterator state holding the next value
to return. -/
structure BufferSizes where
  next : Nat
deriving DecidableEq, Repr

/-- Embedding of `BufferSizes::new` from `src/utils.rs`. -/
def BufferSizes.new : BufferSizes := ⟨INITIAL_SIZE⟩

/-- Embedding of `<BufferSizes as Iterator>::next` from `src/utils.rs` lines 63-75:
yields the current value and doubles the state, or exhausts once the value
exceeds `MAX_SIZE`. -/
def BufferSizes.nextItem (s : BufferSizes) : Option (Nat × BufferSizes) :=
  if s.next > MAX_SIZE then none
  else some (s.next, ⟨s.next * 2⟩)

/-- Collects at most `fuel` items from a `BufferSizes` iterator. -/
def BufferSizes.collect (fuel : Nat) (s : BufferSizes) : List Nat :=
  match fuel with
  | 0 => []
  | fuel' + 1 =>
    match s.nextItem with
    | none => []
    | some (v, s') => v :: BufferSizes.collect fuel' s'

/-- The full sequence of sizes yielded by `BufferSizes::new()` (fuel 100 is
more than enough: the iterator exhausts after 14 items). -/
def bufferSizesList : List Nat := BufferSizes.collect 100 BufferSizes.new

/-- Whether a byte is a UTF-8 continuation byte (`0x80..=0xBF`). -/
def isCont (b : Nat) : Bool := 0x80 ≤ b && b ≤ 0xBF

/-- UTF-8 validity of a byte sequence, as checked by Rust's
`String::from_utf8` (RFC 3629: no overlong encodings, no surrogates, no
code points above U+10FFFF). -/
def isValidUtf8 : List Nat → Bool
  | [] => true
  | b1 :: t1 =>
    if b1 ≤ 0x7F then isValidUtf8 t1
    else
      match t1 with
      | [] => false
      | b2 :: t2 =>
        if 0xC2 ≤ b1 && b1 ≤ 0xDF then isCont b2 && isValidUtf8 t2
        else
          match t2 with
          | [] => false
          | b3 :: t3 =>
            if b1 = 0xE0 then
              (0xA0 ≤ b2 && b2 ≤ 0xBF) && isCont b3 && isValidUtf8 t3
            else if (0xE1 ≤ b1 && b1 ≤ 0xEC) || b1 = 0xEE || b1 = 0xEF then
              isCont b2 && isCont b3 && isValidUtf8 t3
            else if b1 = 0xED then
              (0x80 ≤ b2 && b2 ≤ 0x9F) && isCont b3 && isValidUtf8 t3
            else
              match t3 with
              | [] => false
              | b4 :: t4 =>
                if b1 = 0xF0 then
                  (0x90 ≤ b2 && b2 ≤ 0xBF) && isCont b3 && isCont b4 && isValidUtf8 t4
                else if 0xF1 ≤ b1 && b1 ≤ 0xF3 then
                  isCont b2 && isCont b3 && isCont b4 && isValidUtf8 t4
                else if b1 = 0xF4 then
                  (0x80 ≤ b2 && b2 ≤ 0x8F) && isCont b3 && isCont b4 && isValidUtf8 t4
                else false

/-- The loop body of `copy_string` (`for size in BufferSizes::new()` in
`src/utils.rs` lines 26-47), iterating over the remaining buffer sizes.
`op size` models one invocation of the native string-copy `operation` on a
buffer of `size` bytes: it returns the native status code and the buffer
contents after the call.  For each size: the status is routed through
`check_status` (an error status is propagated); then the buffer up to the
first null byte is taken; if no null byte is present the next size is
tried; a successful copy is UTF-8-validated (`String::from_utf8`, an
invalid encoding yields `Error::Utf8`).  When the sizes are exhausted,
`Error::StringLength` is returned. -/
def copy_string_loop (op : Nat → Nat × List Nat) (lastErr : Option String) :
    List Nat → Except Error (List Nat)
  | [] => Except.error (Error.new ErrorKind.StringLength)
  | size :: rest =>
    let r := op size
    match check_status r.1 lastErr with
    | Except.error e => Except.error e
    | Except.ok _ =>
      match r.2.findIdx? (fun b => b = 0) with
      | some nullIndex =>
        let truncated := r.2.take nullIndex
        if isValidUtf8 truncated then Except.ok truncated
        else Except.error (Error.new ErrorKind.Utf8)
      | none => copy_string_loop op lastErr rest

/-- Embedding of `copy_string` from `src/utils.rs` lines 22-48.  A successful result is
the copied byte sequence (the bytes of the returned Rust `String`);
`lastErr` models the native last-error slot read when building a status
error. -/
def copy_string (op : Nat → Nat × List Nat) (lastErr : Option String) :
    Except Error (List Nat) :=
  copy_string_loop op lastErr bufferSizesList

/-! ## Receive metadata (`src/uhd/src/receive_metadata.rs`) -/

/-- Receive-metadata error codes (`uhd_sys::uhd_rx_metadata_error_code_t`,
values from `uhd/types/metadata.h`). -/
def UHD_RX_METADATA_ERROR_CODE_NONE : Nat := 0x0
def UHD_RX_METADATA_ERROR_CODE_TIMEOUT : Nat := 0x1
def UHD_RX_METADATA_ERROR_CODE_LATE_COMMAND : Nat := 0x2
def UHD_RX_METADATA_ERROR_CODE_BROKEN_CHAIN : Nat := 0x4
def UHD_RX_METADATA_ERROR_CODE_OVERFLOW : Nat := 0x8
def UHD_RX_METADATA_ERROR_CODE_ALIGNMENT : Nat := 0xc
def UHD_RX_METADATA_ERROR_CODE_BAD_PACKET : Nat := 0xf

/-- The state held behind a `uhd_rx_metadata_handle`, restricted to the
fields the embedded code reads: the error code returned by
`uhd_rx_metadata_error_code` and the flag returned by
`uhd_rx_metadata_out_of_sequence`. -/
structure RxMetaNative where
  error_code : Nat
  out_of_sequence : Bool
deriving DecidableEq, Repr

/-- The native state of a freshly made handle (`uhd_rx_metadata_make`):
error code "none", no out-of-sequence flag. -/
def RxMetaNative.fresh : RxMetaNative := ⟨UHD_RX_METADATA_ERROR_CODE_NONE, false⟩

/-- Embedding of `ReceiveMetadata` from `src/receive_metadata.rs`: a native handle (its
observable state) plus the Rust-side `samples` field. -/
structure ReceiveMetadata where
  native : RxMetaNative
  samples : Nat
deriving DecidableEq, Repr

/-- Embedding of `ReceiveMetadata::default` (`src/receive_metadata.rs` lines 158-164):
makes a fresh native handle and sets `samples: 0`. -/
def ReceiveMetadata.default_md : ReceiveMetadata := ⟨RxMetaNative.fresh, 0⟩

/-- Embedding of `ReceiveMetadata::samples` (`src/receive_metadata.rs` lines 100-103). -/
def ReceiveMetadata.samplesFn (m : ReceiveMetadata) : Nat := m.samples

/-- Embedding of `ReceiveMetadata::set_samples` (`src/receive_metadata.rs` lines 105-108).
`pub(crate)`, and called from no other place in the crate. -/
def ReceiveMetadata.set_samples (m : ReceiveMetadata) (samples : Nat) : ReceiveMetadata :=
  { m with samples := samples }

/-- Embedding of `ReceiveErrorKind` from `src/receive_metadata.rs`. -/
inductive ReceiveErrorKind where
  | Timeout
  | LateCommand
  | BrokenChain
  | Overflow
  | OutOfSequence
  | Alignment
  | BadPacket
  | Other
deriving DecidableEq, Repr

/-- Embedding of `ReceiveError` from `src/receive_metadata.rs`. -/
structure ReceiveError where
  kind : ReceiveErrorKind
  message : Option String
deriving DecidableEq, Repr

/-- Embedding of `ReceiveMetadata::last_error` from `src/receive_metadata.rs` lines
119-147.  The `match self.error_code()` arms (in source order, with the
`out_of_sequence` guards on the overflow code) become an if-chain;
`strerrorMsg` models `copy_string(uhd_rx_metadata_strerror).ok()`. -/
def last_error (m : RxMetaNative) (strerrorMsg : Option String) : Option ReceiveError :=
  let out_of_sequence := m.out_of_sequence
  let code := m.error_code
  if code = UHD_RX_METADATA_ERROR_CODE_TIMEOUT then
    some ⟨ReceiveErrorKind.Timeout, strerrorMsg⟩
  else if code = UHD_RX_METADATA_ERROR_CODE_LATE_COMMAND then
    some ⟨ReceiveErrorKind.LateCommand, strerrorMsg⟩
  else if code = UHD_RX_METADATA_ERROR_CODE_BROKEN_CHAIN then
    some ⟨ReceiveErrorKind.BrokenChain, strerrorMsg⟩
  else if code = UHD_RX_METADATA_ERROR_CODE_OVERFLOW ∧ ¬out_of_sequence then
    some ⟨ReceiveErrorKind.Overflow, strerrorMsg⟩
  else if code = UHD_RX_METADATA_ERROR_CODE_OVERFLOW ∧ out_of_sequence then
    some ⟨ReceiveErrorKind.OutOfSequence, strerrorMsg⟩
  else if code = UHD_RX_METADATA_ERROR_CODE_ALIGNMENT then
    some ⟨ReceiveErrorKind.Alignment, strerrorMsg⟩
  else if code = UHD_RX_METADATA_ERROR_CODE_BAD_PACKET then
    some ⟨ReceiveErrorKind.BadPacket, strerrorMsg⟩
  else if code = UHD_RX_METADATA_ERROR_CODE_NONE then
    none
  else
    some ⟨ReceiveErrorKind.Other, strerrorMsg⟩

/-! ## Receive streamer (`src/uhd/src/receive_streamer.rs`) -/

/-- Embedding of `ReceiveStreamer::receive` from `src/receive_streamer.rs` lines 28-51.
The native `uhd_rx_streamer_recv` call is modelled by its observable
outcome: `status` (the returned status code), `samplesWritten` (the value
it stores through the `items_recvd` out-pointer), and `post` (the state of
the metadata handle after the call).  The Rust code constructs
`ReceiveMetadata::default()`, hands its handle and the out-pointer to the
native call, routes the status through `check_status`, and on success
returns the metadata together with `samples_received` — without ever
calling `set_samples` on the metadata. -/
def receive (status : Nat) (samplesWritten : Nat) (post : RxMetaNative)
    (lastErr : Option String) : Except Error (ReceiveMetadata × Nat) :=
  let metadata := ReceiveMetadata.default_md
  let samples_received := samplesWritten
  match check_status status lastErr with
  | Except.error e => Except.error e
  | Except.ok _ => Except.ok ({ metadata with native := post }, samples_received)

/-! ## Stream arguments and stream commands (`src/uhd/src/stream.rs`) -/

/-- The supported sample types: the four implementors of the `Item` trait
in `src/stream.rs` lines 130-141. -/
inductive SampleType where
  | complexF64
  | complexF32
  | complexI16
  | complexI8
deriving DecidableEq, Repr

/-- Embedding of `I::FORMAT` for each `Item` implementor (`src/stream.rs` lines 130-141). -/
def item_format : SampleType → String
  | SampleType.complexF64 => "fc64"
  | SampleType.complexF32 => "fc32"
  | SampleType.complexI16 => "sc16"
  | SampleType.complexI8 => "sc8"

/-- Embedding of `StreamArgs<I>` from `src/stream.rs`: the `PhantomData<I>` type
parameter is embedded as an explicit `itemType` field. -/
structure StreamArgs where
  itemType : SampleType
  wire_format : String
  args : String
  channels : List Nat
deriving DecidableEq, Repr

/-- Embedding of `StreamArgsC` from `src/stream.rs` lines 100-106: each text field is an
owned null-terminated C string, embedded as the validated `String`. -/
structure StreamArgsC where
  host_format : String
  wire_format : String
  args : String
  channels : List Nat
deriving DecidableEq, Repr

/-- Embedding of `CString::new(s)`: fails (with `NulError`) exactly when `s` contains an
interior null byte. -/
def cstring_new (s : String) : Option String :=
  if s.data.any (fun c => c.toNat = 0) then none else some s

/-- Embedding of `<StreamArgsC as TryFrom<&StreamArgs<I>>>::try_from` from
`src/stream.rs` lines 108-122. -/
def stream_args_try_from (sa : StreamArgs) : Option StreamArgsC := do
  let host ← cstring_new (item_format sa.itemType)
  let wire ← cstring_new sa.wire_format
  let a ← cstring_new sa.args
  pure ⟨host, wire, a, sa.channels⟩

/-- Stream-mode enum values (`uhd_sys::uhd_stream_mode_t`, values from
`uhd/usrp/usrp.h`: the ASCII codes of the characters standing for each
mode). -/
def UHD_STREAM_MODE_START_CONTINUOUS : Nat := 97
def UHD_STREAM_MODE_STOP_CONTINUOUS : Nat := 111
def UHD_STREAM_MODE_NUM_SAMPS_AND_DONE : Nat := 100
def UHD_STREAM_MODE_NUM_SAMPS_AND_MORE : Nat := 109

/-- Embedding of `TimeSpec` from `src/lib.rs` lines 47-53: `seconds: i64` embedded as
`Int`, `fraction: f64` embedded as the parameter type `α` (the binding only
ever copies the double verbatim). -/
structure TimeSpec (α : Type) where
  seconds : Int
  fraction : α
deriving DecidableEq, Repr

/-- Embedding of `StreamCommandType` from `src/stream.rs`: `n` is a `u64`, embedded as
`Nat`. -/
inductive StreamCommandType where
  | StartContinuous
  | StopContinuous
  | CountAndDone (n : Nat)
  | CountAndMore (n : Nat)
deriving DecidableEq, Repr

/-- Embedding of `StreamTime` from `src/stream.rs`. -/
inductive StreamTime (α : Type) where
  | Now
  | Later (t : TimeSpec α)
deriving DecidableEq, Repr

/-- Embedding of `StreamCommand` from `src/stream.rs`. -/
structure StreamCommand (α : Type) where
  time : StreamTime α
  command_type : StreamCommandType
deriving DecidableEq, Repr

/-- Embedding of `uhd_sys::uhd_stream_cmd_t`: `stream_mode` is the native enum
(embedded as `Nat`), `num_samps` is a `size_t` (unsigned 64-bit on the
target host, embedded as `Nat`), `time_spec_full_secs` is a `time_t`
(signed 64-bit on the target host, embedded as `Int`), and
`time_spec_frac_secs` is a `double` (embedded as `α`). -/
structure UhdStreamCmd (α : Type) where
  stream_mode : Nat
  num_samps : Nat
  stream_now : Bool
  time_spec_full_secs : Int
  time_spec_frac_secs : α
deriving DecidableEq, Repr

/-- Whether an `i64` value is representable in the native `time_t`
(signed 64-bit on the target host): the success condition of the
`timespec.seconds.try_into()` conversion. -/
def fitsTimeT (s : Int) : Bool := -(2 ^ 63) ≤ s && s < 2 ^ 63

/-- Whether a `u64` value is representable in the native `size_t`
(unsigned 64-bit on the target host): the success condition of the
`samples.try_into()` conversion. -/
def fitsSizeT (n : Nat) : Bool := n < 2 ^ 64

/-- Embedding of `StreamCommand::as_c_command` from `src/stream.rs` lines 172-216.
`z` is the `0.0` double literal of the initializer.  The two `expect`
panics (time too large for `time_t`, sample count too large for `size_t`)
are modelled as `none`. -/
def as_c_command {α : Type} (z : α) (cmd : StreamCommand α) : Option (UhdStreamCmd α) :=
  let c_cmd : UhdStreamCmd α :=
    { stream_mode := UHD_STREAM_MODE_START_CONTINUOUS
      num_samps := 0
      stream_now := false
      time_spec_full_secs := 0
      time_spec_frac_secs := z }
  do
    let c1 ← match cmd.time with
      | StreamTime.Now => some { c_cmd with stream_now := true }
      | StreamTime.Later timespec =>
        if fitsTimeT timespec.seconds then
          some { c_cmd with
                  time_spec_full_secs := timespec.seconds
                  time_spec_frac_secs := timespec.fraction }
        else none
    match cmd.command_type with
    | StreamCommandType.StartContinuous =>
      some { c1 with stream_mode := UHD_STREAM_MODE_START_CONTINUOUS }
    | StreamCommandType.StopContinuous =>
      some { c1 with stream_mode := UHD_STREAM_MODE_STOP_CONTINUOUS }
    | StreamCommandType.CountAndDone samples =>
      if fitsSizeT samples then
        some { c1 with stream_mode := UHD_STREAM_MODE_NUM_SAMPS_AND_DONE
                       num_samps := samples }
      else none
    | StreamCommandType.CountAndMore samples =>
      if fitsSizeT samples then
        some { c1 with stream_mode := UHD_STREAM_MODE_NUM_SAMPS_AND_MORE
                       num_samps := samples }
      else none

/-- Modelled from the claim (round-trip direction): read back the five
fields `stream_mode`, `num_samps`, `stream_now`, `time_spec_full_secs` and
`time_spec_frac_secs` of a native stream command and reconstruct the
command variant and time. -/
def read_back_stream_cmd {α : Type} (c : UhdStreamCmd α) : Option (StreamCommand α) := do
  let command_type ←
    if c.stream_mode = UHD_STREAM_MODE_START_CONTINUOUS then
      some StreamCommandType.StartContinuous
    else if c.stream_mode = UHD_STREAM_MODE_STOP_CONTINUOUS then
      some StreamCommandType.StopContinuous
    else if c.stream_mode = UHD_STREAM_MODE_NUM_SAMPS_AND_DONE then
      some (StreamCommandType.CountAndDone c.num_samps)
    else if c.stream_mode = UHD_STREAM_MODE_NUM_SAMPS_AND_MORE then
      some (StreamCommandType.CountAndMore c.num_samps)
    else none
  let time :=
    if c.stream_now then StreamTime.Now
    else StreamTime.Later ⟨c.time_spec_full_secs, c.time_spec_frac_secs⟩
  pure ⟨time, command_type⟩

/-! ## Transmit streamer (`src/uhd/src/transmitter/streamer.rs`) -/

/-- A caller-supplied per-channel sample buffer (`&[I]`): its address
(`as_ptr`, abstracted as a `Nat`) and its length. -/
structure Buffer where
  ptr : Nat
  len : Nat
deriving DecidableEq, Repr

/-- Embedding of `TransmitMetadata` (`src/transmitter/metadata.rs`), restricted to the
`samples` field set by `set_samples`. -/
structure TransmitMetadata where
  samples : Nat
deriving DecidableEq, Repr

/-- The mutable state of a `TransmitStreamer` that the embedded code
manipulates: the `buffer_pointers` scratch vector (a pointer per channel,
`ptr::null_mut()` abstracted as 0) and the fixed value returned by
`uhd_tx_streamer_num_channels` for this streamer's handle. -/
structure TransmitStreamerSt where
  buffer_pointers : List Nat
  num_channels : Nat
deriving DecidableEq, Repr

/-- Embedding of `TransmitStreamer::new` (`src/transmitter/streamer.rs` lines 36-43):
the scratch vector starts as `Vec::new()`; `nc` is the channel count the
native streamer handle will report once initialized. -/
def TransmitStreamerSt.new (nc : Nat) : TransmitStreamerSt := ⟨[], nc⟩

/-- Modelled from the spec: `check_equal_buffer_lengths` is called by
`TransmitStreamer::transmit` (`src/transmitter/streamer.rs` line 97) but
its definition is absent from the provided sources.  Per the spec
("mismatched buffer lengths ... are fatal" and the `transmit` doc comment
"This function will panic ... if not all buffers have the same length"),
it panics (modelled as `none`) when two buffers have unequal lengths and
otherwise returns the common buffer length (`buffer_length`, the
per-channel sample count passed to the native send). -/
def check_equal_buffer_lengths (buffers : List Buffer) : Option Nat :=
  match buffers with
  | [] => some 0
  | b :: rest => if rest.all (fun x => x.len = b.len) then some b.len else none

/-- The `for (entry, buffer) in self.buffer_pointers.iter_mut().zip(buffers)`
loop of `transmit` (`src/transmitter/streamer.rs` lines 100-102): each entry
paired by `zip` is overwritten with the buffer's pointer; entries beyond the
shorter sequence keep their previous value. -/
def writePointers (bp : List Nat) (buffers : List Buffer) : List Nat :=
  (bp.zip buffers).map (fun p => p.2.ptr) ++ bp.drop buffers.length

instance {ε σ : Type} [DecidableEq ε] [DecidableEq σ] : DecidableEq (Except ε σ) :=
  fun a b =>
    match a, b with
    | Except.ok x, Except.ok y =>
      if h : x = y then isTrue (by rw [h]) else isFalse (by simp [h])
    | Except.error x, Except.error y =>
      if h : x = y then isTrue (by rw [h]) else isFalse (by simp [h])
    | Except.ok _, Except.error _ => isFalse (by simp)
    | Except.error _, Except.ok _ => isFalse (by simp)

/-- The observable outcome of one `transmit` call: either a panic raised by
a precondition check (before the native send entry point is reached), or a
native `uhd_tx_streamer_send` invocation with the per-channel sample count
`len`, whose status produced `result`. -/
inductive TransmitResult where
  | panicked
  | nativeCalled (len : Nat) (result : Except Error TransmitMetadata)
deriving DecidableEq, Repr

/-- Embedding of `TransmitStreamer::transmit` from `src/transmitter/streamer.rs` lines
77-117.  In source order: if `buffer_pointers` is empty it is resized to
`num_channels()` entries of `ptr::null_mut()`; `assert_eq!` panics when the
number of buffers differs from `buffer_pointers.len()`;
`check_equal_buffer_lengths` panics on unequal buffer lengths; the buffer
pointers are copied into the scratch vector; only then is the native send
invoked, modelled by its observable outcome `status` (returned status
code) and `samplesTransmitted` (value stored through the out-pointer).  On
a success status the metadata's sample count is set.  The returned pair is
the streamer state after the call and the call's outcome. -/
def transmit (s : TransmitStreamerSt) (buffers : List Buffer)
    (status : Nat) (samplesTransmitted : Nat) (lastErr : Option String) :
    TransmitStreamerSt × TransmitResult :=
  let bp :=
    if s.buffer_pointers.isEmpty then List.replicate s.num_channels 0
    else s.buffer_pointers
  if buffers.length ≠ bp.length then
    (⟨bp, s.num_channels⟩, TransmitResult.panicked)
  else
    match check_equal_buffer_lengths buffers with
    | none => (⟨bp, s.num_channels⟩, TransmitResult.panicked)
    | some buffer_length =>
      let bp2 := writePointers bp buffers
      match check_status status lastErr with
      | Except.error e =>
        (⟨bp2, s.num_channels⟩, TransmitResult.nativeCalled buffer_length (Except.error e))
      | Except.ok _ =>
        (⟨bp2, s.num_channels⟩,
          TransmitResult.nativeCalled buffer_length (Except.ok ⟨samplesTransmitted⟩))

/-- The scratch-vector invariant documented on the `buffer_pointers` field
(`src/transmitter/streamer.rs` lines 20-25): the vector is either empty or
its length equals `num_channels()`. -/
def scratchInvariant (s : TransmitStreamerSt) : Prop :=
  s.buffer_pointers = [] ∨ s.buffer_pointers.length = s.num_channels

/-- The claim-side precondition of `transmit`: all buffers have the same
length. -/
def allSameLength (buffers : List Buffer) : Prop :=
  ∀ b1 ∈ buffers, ∀ b2 ∈ buffers, b1.len = b2.len

instance (buffers : List Buffer) : Decidable (allSameLength buffers) := by
  unfold allSameLength
  infer_instance

/-! ## String vector (`src/uhd/src/string_vector.rs`) -/

/-- The observable content of a native `uhd_string_vector_handle`: for each
element, the outcome of `copy_string(uhd_string_vector_at ...)` on that
element — a copied `String`, or the `Error` the copy failed with. -/
structure StringVectorM where
  elems : List (Except Error String)
deriving DecidableEq, Repr

/-- Embedding of `StringVector::get` from `src/string_vector.rs` lines 41-55: the copy
outcome for the element, except that an error of kind `StdExcept` (the
status `uhd_string_vector_at` returns for an out-of-range index, which
`copy_string` propagates) is mapped to `None`.  An out-of-range index is
exactly an index with no element, for which the native call fails with the
"std exception" status. -/
def StringVectorM.get (v : StringVectorM) (index : Nat) : Option (Except Error String) :=
  match v.elems[index]? with
  | none => none
  | some (Except.ok value) => some (Except.ok value)
  | some (Except.error e) =>
    if e.kind = ErrorKind.StdExcept then none else some (Except.error e)

/-- The iteration performed by `<Vec<String> as From<&StringVector>>::from`
(`src/string_vector.rs` lines 130-137) driving `Iter::next` (lines 91-99):
starting at index `next` with the length snapshot taken by `iter()`,
`Iter::next` yields `None` when `next == length` and otherwise propagates
`get(next)?` — so a `None` from `get` ends the iteration; `flat_map(ok)`
keeps the `Ok` strings and drops the `Err` elements.  `fuel` is a
structural bound on the number of steps (any value above
`length - next` is exact). -/
def string_vector_collect_go (v : StringVectorM) (length : Nat) :
    Nat → Nat → List String
  | 0, _ => []
  | fuel + 1, next =>
    if next = length then []
    else
      match v.get next with
      | none => []
      | some (Except.ok s) => s :: string_vector_collect_go v length fuel (next + 1)
      | some (Except.error _) => string_vector_collect_go v length fuel (next + 1)

/-- Embedding of `<Vec<String> as From<&StringVector>>::from` from
`src/string_vector.rs` lines 130-137: `strings.iter().flat_map(|r| r.ok()).collect()`. -/
def string_vector_to_strings (v : StringVectorM) : List String :=
  string_vector_collect_go v v.elems.length (v.elems.length + 1) 0

/-- Modelled from the claim: the successfully copied elements of the native
vector, in order. -/
def successfulElements (l : List (Except Error String)) : List String :=
  l.filterMap fun o => match o with
    | Except.ok s => some s
    | Except.error _ => none

/-- Whether a copy outcome is a failure of kind `StdExcept`. -/
def isStdExceptErr (o : Except Error String) : Bool :=
  match o with
  | Except.error e => e.kind = ErrorKind.StdExcept
  | Except.ok _ => false

/-! ## Theorems -/

/-- Claim C6: the buffer-size sequence used by the string copy-out helper
yields exactly 128, 256, 512, 1024, 2048, 4096, 8192, 16384, 32768, 65536,
131072, 262144, 524288, 1048576 in that order (each double the previous),
and then yields nothing: 14 items of fuel produce exactly this list, and
any further fuel produces nothing more. -/
theorem buffer_sizes_exact_sequence :
    BufferSizes.collect 14 BufferSizes.new
      = [128, 256, 512, 1024, 2048, 4096, 8192, 16384, 32768, 65536,
         131072, 262144, 524288, 1048576]
    ∧ bufferSizesList = BufferSizes.collect 14 BufferSizes.new := by
  constructor <;> rfl

/-- Claim C2: for a receive metadata whose native error code is the overflow
code, `last_error()` reports `OutOfSequence` when `out_of_sequence()` is
true and `Overflow` when it is false; and `last_error()` returns `None` if
and only if the native error code is the "none" code. -/
theorem last_error_overflow_disambiguation :
    (∀ (oos : Bool) (msg : Option String),
      (last_error ⟨UHD_RX_METADATA_ERROR_CODE_OVERFLOW, oos⟩ msg).map ReceiveError.kind
        = some (if oos then ReceiveErrorKind.OutOfSequence else ReceiveErrorKind.Overflow))
    ∧ ∀ (m : RxMetaNative) (msg : Option String),
        (last_error m msg = none ↔ m.error_code = UHD_RX_METADATA_ERROR_CODE_NONE) := by
  constructor
  · intro oos msg
    cases oos <;> rfl
  · intro m msg
    obtain ⟨code, oos⟩ := m
    constructor
    · intro h
      unfold last_error at h
      dsimp only at h
      repeat' split at h
      all_goals simp_all [UHD_RX_METADATA_ERROR_CODE_NONE]
    · intro h
      simp only [RxMetaNative.mk.injEq] at h ⊢
      subst h
      cases oos <;> rfl

/-- Claim C3 (counterexample): when the native string-copy operation fails
with the "std exception" status on every invocation, `copy_string` does
*not* return the `StringLength` error — it propagates the `StdExcept`
error from the very first invocation. -/
theorem copy_string_std_except_counterexample :
    copy_string (fun _ => (UHD_ERROR_STDEXCEPT, [])) none
        = Except.error ⟨ErrorKind.StdExcept, none⟩
    ∧ ErrorKind.StdExcept ≠ ErrorKind.StringLength := by
  constructor
  · rfl
  · decide

/-- Claim C3 (amended): if the native string-copy operation fails with the
"std exception" status on every invocation, `copy_string` propagates that
native error (kind `StdExcept`, carrying the current last-error message)
from the first invocation, for every buffer behaviour; `StringLength` is
returned only when the growth sequence is exhausted without any invocation
reporting an error or producing a null byte resp. (second conjunct, with an
always-successful native operation that never writes a null byte). -/
theorem copy_string_error_propagation :
    (∀ (bufs : Nat → List Nat) (le : Option String),
      copy_string (fun n => (UHD_ERROR_STDEXCEPT, bufs n)) le
        = Except.error ⟨ErrorKind.StdExcept, le⟩)
    ∧ ∀ (le : Option String),
        copy_string (fun _ => (UHD_ERROR_NONE, [1])) le
          = Except.error (Error.new ErrorKind.StringLength) := by
  constructor
  · intro bufs le
    rfl
  · intro le
    rfl

/-- Claim C1 (code bug): a successful `ReceiveStreamer::receive` call whose
native recv reported 1 sample written returns the count 1, but the
metadata it returns carries `samples() = 0`: `receive` never calls
`set_samples`, so the sample count carried by the metadata does not equal
the count returned by the call. -/
theorem receive_drops_sample_count :
    receive UHD_ERROR_NONE 1 RxMetaNative.fresh none
        = Except.ok (⟨RxMetaNative.fresh, 0⟩, 1)
    ∧ ReceiveMetadata.samplesFn ⟨RxMetaNative.fresh, 0⟩ = 0
    ∧ (0 : Nat) ≠ 1 := by
  refine ⟨rfl, rfl, by decide⟩

lemma ite_some_eq_none {c : Prop} [Decidable c] {α : Type} {a : α} {rest : Option α}
    (h : (if c then some a else rest) = none) : rest = none := by
  by_cases hc : c
  · rw [if_pos hc] at h
    exact Option.noConfusion h
  · rwa [if_neg hc] at h

lemma code_to_error_kind_eq_none_iff (s : Nat) :
    code_to_error_kind s = none ↔ s = UHD_ERROR_NONE := by
  constructor
  · intro h
    by_contra hne
    unfold code_to_error_kind at h
    rw [if_neg hne] at h
    iterate 17 replace h := ite_some_eq_none h
    exact Option.noConfusion h
  · intro h
    subst h
    rfl

/-- Claim C4: `check_status s` yields `Ok(())` if and only if `s` is the
"none" status; every other status yields an error whose kind is
`code_to_error_kind s` (with the current last-error message attached); and
any code outside the known enumeration maps to the `Unknown` kind. -/
theorem check_status_ok_iff_none (s : Nat) (le : Option String) :
    (check_status s le = Except.ok () ↔ s = UHD_ERROR_NONE)
    ∧ check_status s le =
        (match code_to_error_kind s with
         | none => Except.ok ()
         | some k => Except.error ⟨k, le⟩)
    ∧ (s ∉ knownErrorCodes → code_to_error_kind s = some ErrorKind.Unknown) := by
  refine ⟨?_, ?_, ?_⟩
  · constructor
    · intro h
      rw [← code_to_error_kind_eq_none_iff]
      cases hk : code_to_error_kind s with
      | none => rfl
      | some k =>
        unfold check_status Error.from_code_with_last_error at h
        rw [hk] at h
        simp at h
    · intro h
      subst h
      rfl
  · unfold check_status Error.from_code_with_last_error
    cases hk : code_to_error_kind s <;> simp [hk]
  · intro hmem
    simp only [knownErrorCodes, List.mem_cons, List.not_mem_nil, or_false, not_or] at hmem
    obtain ⟨h0, h1, h2, h3, h4, h5, h6, h7, h8, h9, h10, h11, h12, h13, h14, h15, h16,
      h17, h18⟩ := hmem
    unfold code_to_error_kind
    rw [if_neg h0, if_neg h1, if_neg h2, if_neg h3, if_neg h4, if_neg h5, if_neg h6,
      if_neg h7, if_neg h8, if_neg h9, if_neg h10, if_neg h11, if_neg h12, if_neg h13,
      if_neg h14, if_neg h15, if_neg h16, if_neg h17]

/-- Witness for Claim C4 at the concrete unknown status 999 and an empty
last-error slot. -/
theorem check_status_ok_iff_none_witness :
    code_to_error_kind 999 = some ErrorKind.Unknown
    ∧ check_status 999 none = Except.error ⟨ErrorKind.Unknown, none⟩
    ∧ check_status UHD_ERROR_NONE none = Except.ok () :=
  ⟨(check_status_ok_iff_none 999 none).2.2 (by decide),
   by decide,
   ((check_status_ok_iff_none UHD_ERROR_NONE none).1).mpr rfl⟩

/-- Claim C5: for every stream command whose time is `Now`, or `Later(t)`
with `t.seconds` representable in the native time type, and whose sample
count (in the `CountAndDone` / `CountAndMore` variants) is representable
in the native count type, projecting to the native `uhd_stream_cmd_t`
succeeds and reading back `stream_mode`, `num_samps`, `stream_now`,
`time_spec_full_secs` and `time_spec_frac_secs` recovers the original
command variant and time. -/
theorem stream_command_roundtrip {α : Type} (z : α) (cmd : StreamCommand α)
    (htime : ∀ ts, cmd.time = StreamTime.Later ts → fitsTimeT ts.seconds = true)
    (hcount : ∀ n, (cmd.command_type = StreamCommandType.CountAndDone n ∨
                    cmd.command_type = StreamCommandType.CountAndMore n) →
              fitsSizeT n = true) :
    ∃ c, as_c_command z cmd = some c ∧ read_back_stream_cmd c = some cmd := by
  obtain ⟨time, ctype⟩ := cmd
  cases time with
  | Now =>
    cases ctype with
    | StartContinuous => exact ⟨_, rfl, rfl⟩
    | StopContinuous => exact ⟨_, rfl, rfl⟩
    | CountAndDone n =>
      have hn := hcount n (Or.inl rfl)
      refine ⟨⟨UHD_STREAM_MODE_NUM_SAMPS_AND_DONE, n, true, 0, z⟩, ?_, rfl⟩
      simp [as_c_command, hn]
    | CountAndMore n =>
      have hn := hcount n (Or.inr rfl)
      refine ⟨⟨UHD_STREAM_MODE_NUM_SAMPS_AND_MORE, n, true, 0, z⟩, ?_, rfl⟩
      simp [as_c_command, hn]
  | Later ts =>
    have ht := htime ts rfl
    cases ctype with
    | StartContinuous =>
      refine ⟨⟨UHD_STREAM_MODE_START_CONTINUOUS, 0, false, ts.seconds, ts.fraction⟩, ?_, rfl⟩
      simp [as_c_command, ht]
    | StopContinuous =>
      refine ⟨⟨UHD_STREAM_MODE_STOP_CONTINUOUS, 0, false, ts.seconds, ts.fraction⟩, ?_, rfl⟩
      simp [as_c_command, ht]
    | CountAndDone n =>
      have hn := hcount n (Or.inl rfl)
      refine ⟨⟨UHD_STREAM_MODE_NUM_SAMPS_AND_DONE, n, false, ts.seconds, ts.fraction⟩, ?_, rfl⟩
      simp [as_c_command, ht, hn]
    | CountAndMore n =>
      have hn := hcount n (Or.inr rfl)
      refine ⟨⟨UHD_STREAM_MODE_NUM_SAMPS_AND_MORE, n, false, ts.seconds, ts.fraction⟩, ?_, rfl⟩
      simp [as_c_command, ht, hn]

/-- Witness for Claim C5: the command `CountAndDone 1000` scheduled at the
concrete time 5 s + fraction 7 (the double is instantiated with `Int`)
projects to C-form and reads back to itself. -/
theorem stream_command_roundtrip_witness :
    ∃ c, as_c_command (0 : Int)
            ⟨StreamTime.Later ⟨5, 7⟩, StreamCommandType.CountAndDone 1000⟩ = some c
       ∧ read_back_stream_cmd c
            = some ⟨StreamTime.Later ⟨5, 7⟩, StreamCommandType.CountAndDone 1000⟩ :=
  stream_command_roundtrip 0 ⟨StreamTime.Later ⟨5, 7⟩, StreamCommandType.CountAndDone 1000⟩
    (by
      intro ts h
      cases h
      decide)
    (by
      intro n h
      rcases h with h | h
      · cases h
        decide
      · cases h)

lemma cstring_new_eq_some {s t : String} (h : cstring_new s = some t) : t = s := by
  unfold cstring_new at h
  split at h
  · exact Option.noConfusion h
  · exact (Option.some.injEq _ _ ▸ h).symm

/-- Claim C7: whenever conversion of stream arguments to the C-compatible
form succeeds, the `host_format` string equals the fixed format tag of the
item type (`fc64`/`fc32`/`sc16`/`sc8`), independent of `wire_format`,
`args` and `channels`. -/
theorem stream_args_host_format (sa : StreamArgs) (r : StreamArgsC)
    (h : stream_args_try_from sa = some r) :
    r.host_format = item_format sa.itemType := by
  unfold stream_args_try_from at h
  simp only [bind, Option.bind_eq_some, pure] at h
  obtain ⟨host, hhost, wire, hwire, a, ha, hr⟩ := h
  have hh := cstring_new_eq_some hhost
  cases hr
  simpa using hh

/-- Witness for Claim C7: concrete `Complex32` stream arguments with wire
format `sc16` convert successfully and carry host format `fc32`. -/
theorem stream_args_host_format_witness :
    stream_args_try_from ⟨SampleType.complexF32, "sc16", "", []⟩
        = some ⟨"fc32", "sc16", "", []⟩
    ∧ StreamArgsC.host_format ⟨"fc32", "sc16", "", []⟩
        = item_format SampleType.complexF32 :=
  ⟨by rfl,
   stream_args_host_format ⟨SampleType.complexF32, "sc16", "", []⟩
     ⟨"fc32", "sc16", "", []⟩ (by rfl)⟩

lemma writePointers_length (bp : List Nat) (buffers : List Buffer) :
    (writePointers bp buffers).length = bp.length := by
  simp [writePointers]
  omega

lemma transmit_state (s : TransmitStreamerSt) (buffers : List Buffer)
    (status n : Nat) (le : Option String) :
    ((transmit s buffers status n le).1).num_channels = s.num_channels
    ∧ ((transmit s buffers status n le).1).buffer_pointers.length
        = (if s.buffer_pointers.isEmpty then s.num_channels
           else s.buffer_pointers.length) := by
  unfold transmit
  dsimp only
  set bp := if s.buffer_pointers.isEmpty then List.replicate s.num_channels 0
            else s.buffer_pointers with hbp
  have hlen : bp.length
      = if s.buffer_pointers.isEmpty then s.num_channels
        else s.buffer_pointers.length := by
    rw [hbp]
    split <;> simp
  split
  · exact ⟨rfl, hlen⟩
  · split
    · exact ⟨rfl, hlen⟩
    · split <;> exact ⟨rfl, by rw [writePointers_length]; exact hlen⟩

/-- Claim C8: the transmit streamer's scratch buffer-pointer vector is empty
on construction; the invariant "empty or of length `num_channels()`" is
preserved by every `transmit` call; the first `transmit` call on a fresh
streamer populates it to length `num_channels()`; and any call on a
streamer whose scratch vector is already populated leaves its length
unchanged. -/
theorem transmit_scratch_invariant :
    (∀ nc, scratchInvariant (TransmitStreamerSt.new nc))
    ∧ (∀ s buffers status n le, scratchInvariant s →
        scratchInvariant (transmit s buffers status n le).1)
    ∧ (∀ nc buffers status n le,
        ((transmit (TransmitStreamerSt.new nc) buffers status n le).1).buffer_pointers.length
          = nc)
    ∧ (∀ s buffers status n le, s.buffer_pointers ≠ [] →
        ((transmit s buffers status n le).1).buffer_pointers.length
          = s.buffer_pointers.length) := by
  refine ⟨?_, ?_, ?_, ?_⟩
  · intro nc
    exact Or.inl rfl
  · intro s buffers status n le hinv
    obtain ⟨hnc, hlen⟩ := transmit_state s buffers status n le
    by_cases he : s.buffer_pointers.isEmpty
    · right
      rw [hlen, if_pos he, hnc]
    · rcases hinv with h | h
      · exact absurd (by simp [h]) he
      · right
        rw [hlen, if_neg he, hnc, h]
  · intro nc buffers status n le
    obtain ⟨_, hlen⟩ := transmit_state (TransmitStreamerSt.new nc) buffers status n le
    simpa [TransmitStreamerSt.new] using hlen
  · intro s buffers status n le hne
    obtain ⟨_, hlen⟩ := transmit_state s buffers status n le
    rw [hlen, if_neg (by simpa using hne)]

/-- Witness for Claim C8: a fresh one-channel streamer satisfies the scratch
invariant, and it still satisfies the invariant after a concrete transmit
call. -/
theorem transmit_scratch_invariant_witness :
    scratchInvariant (TransmitStreamerSt.new 1)
    ∧ scratchInvariant (transmit (TransmitStreamerSt.new 1) [⟨7, 3⟩] 0 3 none).1 :=
  ⟨transmit_scratch_invariant.1 1,
   transmit_scratch_invariant.2.1 (TransmitStreamerSt.new 1) [⟨7, 3⟩] 0 3 none
     (transmit_scratch_invariant.1 1)⟩

lemma check_equal_buffer_lengths_eq_none_iff (buffers : List Buffer) :
    check_equal_buffer_lengths buffers = none ↔ ¬ allSameLength buffers := by
  cases buffers with
  | nil =>
    simp only [check_equal_buffer_lengths]
    constructor
    · intro h
      exact Option.noConfusion h
    · intro h
      exact absurd (by intro b1 hb1; cases hb1) h
  | cons b rest =>
    simp only [check_equal_buffer_lengths]
    constructor
    · intro h
      split at h
      · exact Option.noConfusion h
      · rename_i hall
        intro hsame
        apply hall
        rw [List.all_eq_true]
        intro x hx
        have := hsame x (List.mem_cons_of_mem b hx) b (List.mem_cons_self b rest)
        simpa using this
    · intro hnot
      rw [if_neg]
      intro hall
      apply hnot
      rw [List.all_eq_true] at hall
      intro b1 hb1 b2 hb2
      have key : ∀ x ∈ b :: rest, x.len = b.len := by
        intro x hx
        rcases List.mem_cons.mp hx with h | h
        · rw [h]
        · simpa using hall x h
      rw [key b1 hb1, key b2 hb2]

/-- Claim C9: given the scratch invariant, a `transmit` call panics — before
the native send entry point is invoked (the `panicked` outcome carries no
native call) — exactly when the number of buffers differs from
`num_channels()` or two buffers have unequal lengths; with a matching
buffer count and equal lengths the precondition checks do not panic. -/
theorem transmit_panics_iff_precondition_violated
    (s : TransmitStreamerSt) (buffers : List Buffer)
    (status n : Nat) (le : Option String) (hinv : scratchInvariant s) :
    (transmit s buffers status n le).2 = TransmitResult.panicked
      ↔ (buffers.length ≠ s.num_channels ∨ ¬ allSameLength buffers) := by
  have hbplen :
      (if s.buffer_pointers.isEmpty then List.replicate s.num_channels 0
       else s.buffer_pointers).length = s.num_channels := by
    by_cases he : s.buffer_pointers.isEmpty
    · rw [if_pos he]
      simp
    · rw [if_neg he]
      rcases hinv with h | h
      · exact absurd (by simp [h]) he
      · exact h
  unfold transmit
  dsimp only
  rw [hbplen]
  by_cases hc : buffers.length ≠ s.num_channels
  · rw [if_pos hc]
    simp [hc]
  · rw [if_neg hc]
    cases heq : check_equal_buffer_lengths buffers with
    | none =>
      simp only []
      have := (check_equal_buffer_lengths_eq_none_iff buffers).mp heq
      simp [hc, this]
    | some bl =>
      have hsame : allSameLength buffers := by
        by_contra hns
        rw [← check_equal_buffer_lengths_eq_none_iff] at hns
        rw [heq] at hns
        exact Option.noConfusion hns
      cases check_status status le <;> simp [hc, hsame]

/-- Witness for Claim C9: on a fresh two-channel streamer, transmitting two
buffers of unequal lengths (3 and 4) panics before the native send. -/
theorem transmit_panics_iff_precondition_violated_witness :
    (transmit (TransmitStreamerSt.new 2) [⟨1, 3⟩, ⟨2, 4⟩] 0 0 none).2
      = TransmitResult.panicked :=
  (transmit_panics_iff_precondition_violated (TransmitStreamerSt.new 2)
      [⟨1, 3⟩, ⟨2, 4⟩] 0 0 none (Or.inl rfl)).mpr
    (Or.inr (by decide))

/-- List-structural description of the conversion loop: keep `Ok` strings,
skip non-`StdExcept` errors, stop at the first `StdExcept` error. -/
def walk : List (Except Error String) → List String
  | [] => []
  | Except.ok s :: rest => s :: walk rest
  | Except.error e :: rest =>
    if e.kind = ErrorKind.StdExcept then [] else walk rest

lemma string_vector_collect_go_eq_walk (v : StringVectorM) :
    ∀ (fuel next : Nat), v.elems.length - next < fuel →
      string_vector_collect_go v v.elems.length fuel next = walk (v.elems.drop next) := by
  intro fuel
  induction fuel with
  | zero =>
    intro next h
    omega
  | succ fuel ih =>
    intro next h
    by_cases hn : next = v.elems.length
    · rw [string_vector_collect_go, if_pos hn]
      rw [List.drop_eq_nil_of_le (le_of_eq hn.symm)]
      rfl
    · rw [string_vector_collect_go, if_neg hn]
      by_cases hlt : next < v.elems.length
      · have hget : v.elems[next]? = some (v.elems.get ⟨next, hlt⟩) :=
          List.getElem?_eq_getElem hlt
        have hdrop : v.elems.drop next = v.elems.get ⟨next, hlt⟩ :: v.elems.drop (next + 1) :=
          List.drop_eq_getElem_cons hlt
        rw [hdrop]
        unfold StringVectorM.get
        rw [hget]
        cases hel : v.elems.get ⟨next, hlt⟩ with
        | ok s =>
          rw [walk]
          dsimp only
          rw [ih (next + 1) (by omega)]
        | error e =>
          rw [walk]
          dsimp only
          by_cases hk : e.kind = ErrorKind.StdExcept
          · rw [if_pos hk, if_pos hk]
          · rw [if_neg hk, if_neg hk]
            exact ih (next + 1) (by omega)
      · have hge : v.elems.length ≤ next := by omega
        have hget : v.elems[next]? = none := by
          rw [List.getElem?_eq_none hge]
        unfold StringVectorM.get
        rw [hget]
        rw [List.drop_eq_nil_of_le hge]
        rfl

lemma string_vector_to_strings_eq_walk (v : StringVectorM) :
    string_vector_to_strings v = walk v.elems := by
  unfold string_vector_to_strings
  rw [string_vector_collect_go_eq_walk v (v.elems.length + 1) 0 (by omega)]
  rfl

lemma walk_eq_successes_takeWhile (l : List (Except Error String)) :
    walk l = successfulElements (l.takeWhile (fun o => !(isStdExceptErr o))) := by
  induction l with
  | nil => rfl
  | cons hd tl ih =>
    cases hd with
    | ok s =>
      rw [walk, ih]
      simp [List.takeWhile_cons, isStdExceptErr, successfulElements, List.filterMap_cons]
    | error e =>
      by_cases hk : e.kind = ErrorKind.StdExcept
      · rw [walk, if_pos hk]
        simp [List.takeWhile_cons, isStdExceptErr, hk, successfulElements]
      · rw [walk, if_neg hk, ih]
        simp [List.takeWhile_cons, isStdExceptErr, hk, successfulElements,
          List.filterMap_cons]

/-- Claim C10 (counterexample): a native vector whose first element's
copy-out fails with the `StdExcept` kind and whose second element copies
successfully converts to the empty sequence — the successfully copied
element `"a"` is *not* in the result, so the conversion does not "contain
exactly the successfully copied elements". -/
theorem string_vector_conversion_counterexample :
    string_vector_to_strings
        ⟨[Except.error (Error.new ErrorKind.StdExcept), Except.ok "a"]⟩ = []
    ∧ successfulElements
        [Except.error (Error.new ErrorKind.StdExcept), Except.ok "a"] = ["a"] := by
  constructor <;> rfl

/-- Claim C10 (amended): the conversion of a `StringVector` to a sequence of
strings reports no error; it silently drops every element whose copy-out
fails with an error other than `StdExcept` (for example invalid UTF-8) and
continues, but an element whose copy-out fails with the `StdExcept` kind
terminates the iteration, silently omitting that element and every later
one: the result is exactly the successfully copied elements, in order, of
the longest prefix that contains no `StdExcept` copy failure. -/
theorem string_vector_conversion_drops_failures (v : StringVectorM) :
    string_vector_to_strings v
      = successfulElements (v.elems.takeWhile (fun o => !(isStdExceptErr o))) := by
  rw [string_vector_to_strings_eq_walk, walk_eq_successes_takeWhile]

end Uhd
